import Mathlib

/-!
Verification of the energy load balancer's core components, shallowly
embedded from the Python sources:

* `EnergySimulation.run_simulation` — the optimization engine of
  `src/energy_simulation.py` (workload redistribution toward
  renewable-rich slots, flat 10% reduction of non-optimal slots,
  clamping, and metric aggregation).
* `BaselineCalculator.calculate_baseline` — the baseline estimator of
  `src/baseline_calculator.py` (including its error behaviour when the
  workload column is missing, and its write-back of the coerced column).
* `Simulator.run_simulation` — the variant engine of `src/simulator.py`,
  modelled with explicit state passing because it stores derived columns
  on the caller's table.

Numeric cells are modelled as exact rationals (`Rat`); the Python
literals 0.1, 0.2, 0.7, 0.9 appear as the corresponding rationals.
-/

/-- One row of the input table: the columns read by the optimization
engine of `src/energy_simulation.py`. -/
structure Slot where
  /-- Column 'Workload Energy Consumption (kWh)'. -/
  workload : Rat
  /-- Column 'Renewable Availability (%)'. -/
  availabilityPct : Rat
  /-- Column 'Energy Price ($/kWh)'. -/
  price : Rat
deriving DecidableEq, Repr

namespace EnergySimulation

/-- `renewable_availability = data['Renewable Availability (%)'].values / 100`. -/
def availabilityFrac (s : Slot) : Rat := s.availabilityPct / 100

/-- `optimal_hours = renewable_availability >= renewable_threshold`. -/
def isOptimal (t : Rat) (s : Slot) : Bool := availabilityFrac s ≥ t

/-- Per-slot baseline emissions of the engine:
`baseline_non_renewable_energy * emission_factor_non_renewable +
 baseline_renewable_energy * emission_factor_renewable`, with
`baseline_renewable_energy = workload * availability_fraction`. -/
def slotBaselineEmissions (nr r : Rat) (s : Slot) : Rat :=
  (s.workload - s.workload * availabilityFrac s) * nr +
    s.workload * availabilityFrac s * r

/-- `energy_to_shift = np.sum(workload[~optimal] * (threshold - availability[~optimal]))`. -/
def energyToShift (t : Rat) (slots : List Slot) : Rat :=
  ((slots.filter (fun s => ! isOptimal t s)).map
    (fun s => s.workload * (t - availabilityFrac s))).sum

/-- The redistribution loop: walk the slots in order threading the
remaining `energy_to_shift`; each optimal slot gains
`min(energy_to_shift, workload * 0.2)`, and the loop breaks as soon as
the remaining amount is `≤ 0` (checked after the decrement, as in the
source).  Returns the per-slot energy after the loop together with the
remaining (dropped) shift amount. -/
def redistribute (t : Rat) : List Slot → Rat → List Rat × Rat
  | [], shift => ([], shift)
  | s :: rest, shift =>
    if isOptimal t s then
      let maxAdd := s.workload * (2/10)
      let amt := min shift maxAdd
      let shiftRemaining := shift - amt
      if shiftRemaining ≤ 0 then
        ((s.workload + amt) :: rest.map Slot.workload, shiftRemaining)
      else
        let res := redistribute t rest shiftRemaining
        ((s.workload + amt) :: res.1, res.2)
    else
      let res := redistribute t rest shift
      (s.workload :: res.1, res.2)

/-- Per-slot energy after the increase loop. -/
def increasedEnergy (t : Rat) (slots : List Slot) : List Rat :=
  (redistribute t slots (energyToShift t slots)).1

/-- The deficit left over (dropped) after the increase loop. -/
def remainingDeficit (t : Rat) (slots : List Slot) : Rat :=
  (redistribute t slots (energyToShift t slots)).2

/-- The decrease loop: every non-optimal slot loses `workload * 0.1`
(computed from the original workload, applied to the value after the
increase loop). -/
def reducedEnergy (t : Rat) (slots : List Slot) : List Rat :=
  List.zipWith
    (fun s v => if isOptimal t s then v else v - s.workload * (1/10))
    slots (increasedEnergy t slots)

/-- `optimized_workload_energy = np.maximum(optimized_workload_energy, 0)`. -/
def optimizedEnergy (t : Rat) (slots : List Slot) : List Rat :=
  (reducedEnergy t slots).map (fun v => max v 0)

/-- The aggregate results dictionary of `run_simulation`, together with
the two energy columns of the result data frame. -/
structure SimOut where
  total_baseline_energy : Rat
  total_optimized_energy : Rat
  energy_savings : Rat
  total_baseline_cost : Rat
  total_optimized_cost : Rat
  cost_savings : Rat
  total_baseline_emissions : Rat
  total_optimized_emissions : Rat
  emissions_reduction : Rat
  carbon_footprint_impact : Rat
  /-- Column 'Baseline Energy (kWh)' of the result frame. -/
  df_baseline_energy : List Rat
  /-- Column 'Optimized Energy (kWh)' of the result frame. -/
  df_optimized_energy : List Rat
deriving DecidableEq, Repr

/-- `run_simulation` of `src/energy_simulation.py` (steps 2-5):
baseline metrics, workload redistribution, flat reduction, clamping,
optimized metrics, aggregation, and the division-guarded carbon
footprint percentage. -/
def run_simulation (slots : List Slot) (t nr r : Rat) : SimOut :=
  let opt := optimizedEnergy t slots
  let tbe := (slots.map Slot.workload).sum
  let toe := opt.sum
  let tbc := (slots.map (fun s => s.workload * s.price)).sum
  let toc := (List.zipWith (fun s v => v * s.price) slots opt).sum
  let tbm := (slots.map (slotBaselineEmissions nr r)).sum
  let tom := (List.zipWith
    (fun s v => (v - v * availabilityFrac s) * nr + v * availabilityFrac s * r)
    slots opt).sum
  let er := tbm - tom
  { total_baseline_energy := tbe
    total_optimized_energy := toe
    energy_savings := tbe - toe
    total_baseline_cost := tbc
    total_optimized_cost := toc
    cost_savings := tbc - toc
    total_baseline_emissions := tbm
    total_optimized_emissions := tom
    emissions_reduction := er
    carbon_footprint_impact := if tbm ≠ 0 then er / tbm * 100 else 0
    df_baseline_energy := slots.map Slot.workload
    df_optimized_energy := opt }

end EnergySimulation

/-- The input table as seen by `calculate_baseline` of
`src/baseline_calculator.py`: the function touches only the
'Workload Energy Consumption (kWh)' column, which may be absent
(`none`). -/
structure BFrame where
  /-- Column 'Workload Energy Consumption (kWh)', when present. -/
  workloadCol : Option (List Rat)
deriving DecidableEq, Repr

/-- The exceptions `calculate_baseline` can raise. -/
inductive BaselineError where
  /-- `KeyError`: raised by the column access
  `data['Workload Energy Consumption (kWh)']` when the column is absent. -/
  | keyError : BaselineError
  /-- The `ValueError` of the explicit existence check
  ("Data must contain a 'Workload Energy Consumption (kWh)' column."). -/
  | missingColumn : BaselineError
deriving DecidableEq, Repr

/-- The metrics dictionary returned by `calculate_baseline`. -/
structure BaselineMetrics where
  total_energy : Rat
  total_cost : Rat
  total_emissions : Rat
deriving DecidableEq, Repr

namespace BaselineCalculator

/-- `calculate_baseline` of `src/baseline_calculator.py`, with explicit
state passing for its in-place write-back of the coerced column.  The
source first evaluates `pd.to_numeric(data['Workload Energy Consumption
(kWh)'], errors='coerce')` — whose column access raises `KeyError` when
the column is absent — and assigns the result back to the column; only
afterwards does it run the explicit existence check, which therefore can
never fire.  On numeric cells (our `Rat` model) the coercion is the
identity.  Returns the metrics together with the caller's table after
the call. -/
def calculate_baseline (data : BFrame) (energy_price_per_kwh : Rat)
    (emission_factor_non_renewable : Rat) :
    Except BaselineError (BaselineMetrics × BFrame) :=
  match data.workloadCol with
  | none => .error .keyError
  | some w =>
    let dataAfter : BFrame := { workloadCol := some w }
    if dataAfter.workloadCol.isNone then .error .missingColumn
    else
      let total_energy := w.sum
      .ok ({ total_energy := total_energy
             total_cost := total_energy * energy_price_per_kwh
             total_emissions := total_energy * emission_factor_non_renewable },
           dataAfter)

/-- The `total_emissions` field of a successful `calculate_baseline`
call (0 on error); used to relate the estimator to the engine. -/
def totalEmissionsOf (data : BFrame) (p nr : Rat) : Rat :=
  match calculate_baseline data p nr with
  | .ok res => res.1.total_emissions
  | .error _ => 0

end BaselineCalculator

/-- The input table as seen by `run_simulation` of `src/simulator.py`:
the two columns it reads, plus the three derived columns it stores on
the caller's table (absent, `none`, on a fresh input). -/
structure SimFrame where
  /-- Column 'Workload Energy Consumption (kWh)'. -/
  workload : List Rat
  /-- Column 'Renewable Availability (%)'. -/
  availabilityPct : List Rat
  /-- Column 'Baseline Emissions', when present. -/
  baselineEmissionsCol : Option (List Rat)
  /-- Column 'Optimized Energy', when present. -/
  optimizedEnergyCol : Option (List Rat)
  /-- Column 'Optimized Emissions', when present. -/
  optimizedEmissionsCol : Option (List Rat)
deriving DecidableEq, Repr

/-- The results dictionary of `run_simulation` of `src/simulator.py`. -/
structure SimulatorResults where
  baseline_energy : Rat
  optimized_energy : Rat
  energy_savings : Rat
  baseline_cost : Rat
  optimized_cost : Rat
  cost_savings : Rat
  baseline_emissions : Rat
  optimized_emissions : Rat
  emissions_savings : Rat
deriving DecidableEq, Repr

namespace Simulator

/-- Per-slot emissions split of `src/simulator.py`:
`e * ef_nr * (1 - a/100) + e * ef_r * (a/100)`. -/
def emissionsSplit (nr r : Rat) (e a : Rat) : Rat :=
  e * nr * (1 - a / 100) + e * r * (a / 100)

/-- `run_simulation` of `src/simulator.py`, with explicit state passing:
the source stores the columns 'Baseline Emissions', 'Optimized Energy'
and 'Optimized Emissions' on the caller's table (`data[...] = ...`), so
the function is modelled as returning the results dictionary together
with the caller's table after the call. -/
def run_simulation (data : SimFrame) (renewable_threshold : Rat)
    (energy_price_per_kwh : Rat) (emission_factor_non_renewable : Rat)
    (emission_factor_renewable : Rat) : SimulatorResults × SimFrame :=
  let nr := emission_factor_non_renewable
  let r := emission_factor_renewable
  let baseEm := List.zipWith (emissionsSplit nr r) data.workload data.availabilityPct
  let optEn := List.zipWith
    (fun w a => if a ≥ renewable_threshold * 100 then w else w * (9/10))
    data.workload data.availabilityPct
  let optEm := List.zipWith (emissionsSplit nr r) optEn data.availabilityPct
  let dataAfter : SimFrame :=
    { data with
      baselineEmissionsCol := some baseEm
      optimizedEnergyCol := some optEn
      optimizedEmissionsCol := some optEm }
  ({ baseline_energy := data.workload.sum
     optimized_energy := optEn.sum
     energy_savings := data.workload.sum - optEn.sum
     baseline_cost := (data.workload.map (· * energy_price_per_kwh)).sum
     optimized_cost := (optEn.map (· * energy_price_per_kwh)).sum
     cost_savings := (data.workload.map (· * energy_price_per_kwh)).sum -
       (optEn.map (· * energy_price_per_kwh)).sum
     baseline_emissions := baseEm.sum
     optimized_emissions := optEm.sum
     emissions_savings := baseEm.sum - optEm.sum },
   dataAfter)

end Simulator

/-- Claim C1: on the 3-slot scenario with workloads [10, 10, 10] kWh,
availabilities [80, 50, 30] %, threshold 0.7, price 0.1 $/kWh and
emission factors 0.5 / 0.02, the engine classifies slot 1 as optimal and
slots 2-3 as non-optimal, computes a deficit of 6, adds exactly 2 kWh to
slot 1 (its 20% cap) leaving a dropped deficit of 4, reduces slots 2 and
3 by 10% each, and returns optimized energy [12, 9, 9] with total 30,
equal to the baseline total 30, so the energy savings are exactly 0. -/
theorem c1_concrete_scenario :
    ([⟨10, 80, 1/10⟩, ⟨10, 50, 1/10⟩, ⟨10, 30, 1/10⟩] : List Slot).map
        (EnergySimulation.isOptimal (7/10)) = [true, false, false]
    ∧ EnergySimulation.energyToShift (7/10)
        [⟨10, 80, 1/10⟩, ⟨10, 50, 1/10⟩, ⟨10, 30, 1/10⟩] = 6
    ∧ EnergySimulation.increasedEnergy (7/10)
        [⟨10, 80, 1/10⟩, ⟨10, 50, 1/10⟩, ⟨10, 30, 1/10⟩] = [12, 10, 10]
    ∧ EnergySimulation.remainingDeficit (7/10)
        [⟨10, 80, 1/10⟩, ⟨10, 50, 1/10⟩, ⟨10, 30, 1/10⟩] = 4
    ∧ (EnergySimulation.run_simulation
        [⟨10, 80, 1/10⟩, ⟨10, 50, 1/10⟩, ⟨10, 30, 1/10⟩]
        (7/10) (1/2) (1/50)).df_optimized_energy = [12, 9, 9]
    ∧ (EnergySimulation.run_simulation
        [⟨10, 80, 1/10⟩, ⟨10, 50, 1/10⟩, ⟨10, 30, 1/10⟩]
        (7/10) (1/2) (1/50)).total_optimized_energy = 30
    ∧ (EnergySimulation.run_simulation
        [⟨10, 80, 1/10⟩, ⟨10, 50, 1/10⟩, ⟨10, 30, 1/10⟩]
        (7/10) (1/2) (1/50)).total_baseline_energy = 30
    ∧ (EnergySimulation.run_simulation
        [⟨10, 80, 1/10⟩, ⟨10, 50, 1/10⟩, ⟨10, 30, 1/10⟩]
        (7/10) (1/2) (1/50)).energy_savings = 0 := by
  norm_num [EnergySimulation.run_simulation, EnergySimulation.optimizedEnergy,
    EnergySimulation.reducedEnergy, EnergySimulation.increasedEnergy,
    EnergySimulation.remainingDeficit, EnergySimulation.redistribute,
    EnergySimulation.energyToShift, EnergySimulation.isOptimal,
    EnergySimulation.availabilityFrac, EnergySimulation.slotBaselineEmissions,
    List.filter, List.zipWith]

/-- Claim C5: for every non-empty workload column and positive price and
non-renewable emission factor, the baseline estimator returns
`total_energy = Σ workload`, `total_cost = total_energy × price` and
`total_emissions = total_energy × emission_factor_non_renewable`; the
renewable availability is ignored entirely (the function reads no other
column, which the `BFrame` model reflects), and the caller's table is
returned with the workload column unchanged. -/
theorem c5_baseline_estimator (w : List Rat) (p nr : Rat)
    (hne : w ≠ []) (hp : 0 < p) (hnr : 0 < nr) :
    BaselineCalculator.calculate_baseline ⟨some w⟩ p nr =
      .ok ({ total_energy := w.sum, total_cost := w.sum * p,
             total_emissions := w.sum * nr }, ⟨some w⟩) := by
  simp [BaselineCalculator.calculate_baseline]

/-- Witness for C5 at the concrete column [10, 10, 10], price 0.1 and
emission factor 0.5. -/
theorem c5_baseline_estimator_witness :
    ([10, 10, 10] : List Rat) ≠ [] ∧ (0 : Rat) < 1/10 ∧ (0 : Rat) < 1/2 ∧
    BaselineCalculator.calculate_baseline ⟨some [10, 10, 10]⟩ (1/10) (1/2) =
      .ok ({ total_energy := ([10, 10, 10] : List Rat).sum,
             total_cost := ([10, 10, 10] : List Rat).sum * (1/10),
             total_emissions := ([10, 10, 10] : List Rat).sum * (1/2) },
           ⟨some [10, 10, 10]⟩) :=
  ⟨by simp, by norm_num, by norm_num,
   c5_baseline_estimator [10, 10, 10] (1/10) (1/2) (by simp)
     (by norm_num) (by norm_num)⟩

/-- Claim C6 (code bug): on a table whose workload column is absent,
`calculate_baseline` fails with `KeyError` — raised by the
`pd.to_numeric(data['Workload Energy Consumption (kWh)'], ...)` access
on its first line — and never reaches its explicit existence check, so
the documented missing-column `ValueError` is not the error produced. -/
theorem c6_missing_column_raises_keyerror :
    BaselineCalculator.calculate_baseline ⟨none⟩ (1/10) (1/2) =
      .error .keyError ∧
    BaselineCalculator.calculate_baseline ⟨none⟩ (1/10) (1/2) ≠
      .error .missingColumn := by
  constructor
  · rfl
  · simp [BaselineCalculator.calculate_baseline]

/-- Counterexample for C2: with the positive parameters price 0.1 and
emission factors 0.5 / 0.02, `run_simulation` of `src/simulator.py` on a
fresh 1-row table returns a caller table different from the input: the
call stores the derived columns 'Baseline Emissions', 'Optimized Energy'
and 'Optimized Emissions' on it. -/
theorem c2_counterexample_simulator_mutates :
    (0 : Rat) < 1/10 ∧ (0 : Rat) < 1/2 ∧ (0 : Rat) < 1/50 ∧
    (Simulator.run_simulation ⟨[10], [80], none, none, none⟩
        (7/10) (1/10) (1/2) (1/50)).2 ≠
      (⟨[10], [80], none, none, none⟩ : SimFrame) := by
  refine ⟨by norm_num, by norm_num, by norm_num, ?_⟩
  simp [Simulator.run_simulation]

/-- Claim C2 as amended: for every input table and positive prices and
emission factors, `calculate_baseline` returns the caller's table with
exactly its input values (its write-back of the coerced workload column
is value-identical for numeric data), while `run_simulation` of
`src/simulator.py` preserves the values of the pre-existing workload and
availability columns but does mutate the caller's table by storing the
three derived columns 'Baseline Emissions', 'Optimized Energy' and
'Optimized Emissions' on it. -/
theorem c2_amended_value_frame :
    (∀ (w : List Rat) (p nr : Rat) (res : BaselineMetrics × BFrame),
        0 < p → 0 < nr →
        BaselineCalculator.calculate_baseline ⟨some w⟩ p nr = .ok res →
        res.2 = ⟨some w⟩) ∧
    (∀ (f : SimFrame) (t p nr r : Rat), 0 < p → 0 < nr → 0 < r →
        ((Simulator.run_simulation f t p nr r).2.workload = f.workload ∧
         (Simulator.run_simulation f t p nr r).2.availabilityPct =
           f.availabilityPct ∧
         ((Simulator.run_simulation f t p nr r).2.baselineEmissionsCol).isSome
           = true ∧
         ((Simulator.run_simulation f t p nr r).2.optimizedEnergyCol).isSome
           = true ∧
         ((Simulator.run_simulation f t p nr r).2.optimizedEmissionsCol).isSome
           = true)) := by
  constructor
  · intro w p nr res hp hnr h
    simp [BaselineCalculator.calculate_baseline] at h
    subst h
    rfl
  · intro f t p nr r hp hnr hr
    simp [Simulator.run_simulation]

/-- Witness for the amended C2 at a concrete 1-row table with price 0.1
and emission factors 0.5 / 0.02. -/
theorem c2_amended_value_frame_witness :
    ((⟨some [10]⟩ : BFrame) = ⟨some [10]⟩) ∧
    (Simulator.run_simulation ⟨[10], [80], none, none, none⟩
        (7/10) (1/10) (1/2) (1/50)).2.workload = [10] := by
  constructor
  · exact c2_amended_value_frame.1 [10] (1/10) (1/2)
      ({ total_energy := 10, total_cost := 1, total_emissions := 5 },
        ⟨some [10]⟩)
      (by norm_num) (by norm_num)
      (by norm_num [BaselineCalculator.calculate_baseline])
  · exact (c2_amended_value_frame.2 ⟨[10], [80], none, none, none⟩
      (7/10) (1/10) (1/2) (1/50) (by norm_num) (by norm_num) (by norm_num)).1

/-- Projection: the engine's optimized-energy column. -/
theorem df_optimized_energy_run (slots : List Slot) (t nr r : Rat) :
    (EnergySimulation.run_simulation slots t nr r).df_optimized_energy =
      EnergySimulation.optimizedEnergy t slots := rfl

/-- Projection: the engine's total optimized energy. -/
theorem total_optimized_energy_run (slots : List Slot) (t nr r : Rat) :
    (EnergySimulation.run_simulation slots t nr r).total_optimized_energy =
      (EnergySimulation.optimizedEnergy t slots).sum := rfl

/-- Projection: the engine's total baseline energy. -/
theorem total_baseline_energy_run (slots : List Slot) (t nr r : Rat) :
    (EnergySimulation.run_simulation slots t nr r).total_baseline_energy =
      (slots.map Slot.workload).sum := rfl

/-- Projection: the engine's total baseline emissions. -/
theorem total_baseline_emissions_run (slots : List Slot) (t nr r : Rat) :
    (EnergySimulation.run_simulation slots t nr r).total_baseline_emissions =
      (slots.map (EnergySimulation.slotBaselineEmissions nr r)).sum := rfl

/-- Projection: the engine's guarded carbon-footprint percentage. -/
theorem carbon_footprint_impact_run (slots : List Slot) (t nr r : Rat) :
    (EnergySimulation.run_simulation slots t nr r).carbon_footprint_impact =
      (if (slots.map (EnergySimulation.slotBaselineEmissions nr r)).sum ≠ 0 then
        ((slots.map (EnergySimulation.slotBaselineEmissions nr r)).sum -
          (List.zipWith
            (fun s v => (v - v * EnergySimulation.availabilityFrac s) * nr +
              v * EnergySimulation.availabilityFrac s * r)
            slots (EnergySimulation.optimizedEnergy t slots)).sum) /
          (slots.map (EnergySimulation.slotBaselineEmissions nr r)).sum * 100
      else 0) := rfl

/-- The redistribution loop run with a remaining shift of 0 over slots
of non-negative workload leaves every slot at its original workload and
drops nothing (the loop breaks at the first optimal slot after adding
`min 0 maxAdd = 0`). -/
theorem redistribute_zero (t : Rat) :
    ∀ slots : List Slot, (∀ s ∈ slots, 0 ≤ s.workload) →
      EnergySimulation.redistribute t slots 0 = (slots.map Slot.workload, 0) := by
  intro slots
  induction slots with
  | nil => intro _; rfl
  | cons s rest ih =>
    intro h
    have hw : 0 ≤ s.workload := h s (List.mem_cons_self s rest)
    by_cases hopt : EnergySimulation.isOptimal t s
    · have hmax : min (0 : Rat) (s.workload * (2/10)) = 0 :=
        min_eq_left (mul_nonneg hw (by norm_num))
      simp [EnergySimulation.redistribute, hopt, hmax]
    · simp [EnergySimulation.redistribute, hopt,
        ih fun x hx => h x (List.mem_cons_of_mem s hx)]

/-- When no slot is optimal, the redistribution loop is the identity on
the workloads and drops the whole shift amount. -/
theorem redistribute_no_optimal (t : Rat) :
    ∀ (slots : List Slot) (shift : Rat),
      (∀ s ∈ slots, EnergySimulation.isOptimal t s = false) →
      EnergySimulation.redistribute t slots shift =
        (slots.map Slot.workload, shift) := by
  intro slots
  induction slots with
  | nil => intro _ _; rfl
  | cons s rest ih =>
    intro shift h
    have hs : EnergySimulation.isOptimal t s = false :=
      h s (List.mem_cons_self s rest)
    simp [EnergySimulation.redistribute, hs,
      ih shift fun x hx => h x (List.mem_cons_of_mem s hx)]

/-- The decrease loop is the identity when every slot is optimal. -/
theorem reduce_all_optimal (t : Rat) :
    ∀ slots : List Slot, (∀ s ∈ slots, EnergySimulation.isOptimal t s = true) →
      List.zipWith
        (fun s v => if EnergySimulation.isOptimal t s then v
          else v - s.workload * (1/10))
        slots (slots.map Slot.workload) = slots.map Slot.workload := by
  intro slots
  induction slots with
  | nil => intro _; rfl
  | cons s rest ih =>
    intro h
    have h1 : EnergySimulation.isOptimal t s = true :=
      h s (List.mem_cons_self s rest)
    have h2 := ih fun x hx => h x (List.mem_cons_of_mem s hx)
    simp only [List.map_cons, List.zipWith_cons_cons, h1, eq_self_iff_true,
      if_true]
    rw [h2]

/-- The decrease loop subtracts 10% of each workload when no slot is
optimal. -/
theorem reduce_no_optimal (t : Rat) :
    ∀ slots : List Slot, (∀ s ∈ slots, EnergySimulation.isOptimal t s = false) →
      List.zipWith
        (fun s v => if EnergySimulation.isOptimal t s then v
          else v - s.workload * (1/10))
        slots (slots.map Slot.workload) =
        slots.map (fun s => s.workload - s.workload * (1/10)) := by
  intro slots
  induction slots with
  | nil => intro _; rfl
  | cons s rest ih =>
    intro h
    have h1 : EnergySimulation.isOptimal t s = false :=
      h s (List.mem_cons_self s rest)
    have h2 := ih fun x hx => h x (List.mem_cons_of_mem s hx)
    simp only [List.map_cons, List.zipWith_cons_cons, h1, Bool.false_eq_true,
      if_false]
    rw [h2]

/-- Clamping at 0 is the identity on a list of non-negative values. -/
theorem map_max_zero (l : List Rat) (h : ∀ x ∈ l, 0 ≤ x) :
    l.map (fun v => max v 0) = l := by
  induction l with
  | nil => rfl
  | cons x rest ih =>
    simp [max_eq_left (h x (List.mem_cons_self x rest)),
      ih fun y hy => h y (List.mem_cons_of_mem x hy)]

/-- Summing a workload column scaled by a constant factors the constant
out of the sum. -/
theorem sum_map_mul_const (l : List Slot) (f : Slot → Rat) (c : Rat) :
    (l.map (fun s => f s * c)).sum = (l.map f).sum * c := by
  induction l with
  | nil => simp
  | cons s rest ih =>
    simp only [List.map_cons, List.sum_cons, ih]
    ring

/-- Element lookup through the decrease loop: at an optimal slot the
loop returns the incoming value unchanged. -/
theorem zipWith_reduce_getElem (t : Rat) :
    ∀ (slots : List Slot) (vals : List Rat) (i : Nat) (s : Slot),
      slots[i]? = some s → EnergySimulation.isOptimal t s = true →
      (List.zipWith
        (fun s v => if EnergySimulation.isOptimal t s then v
          else v - s.workload * (1/10)) slots vals)[i]? = vals[i]? := by
  intro slots
  induction slots with
  | nil => intro vals i s hs; simp at hs
  | cons a rest ih =>
    intro vals i s hs hopt
    cases vals with
    | nil => simp
    | cons v vrest =>
      cases i with
      | zero =>
        rw [List.getElem?_cons_zero] at hs
        obtain rfl : a = s := by injection hs
        simp [hopt]
      | succ n =>
        rw [List.getElem?_cons_succ] at hs
        simp only [List.zipWith_cons_cons, List.getElem?_cons_succ]
        exact ih vrest n s hs hopt

/-- Claim C3: with threshold 0, on a non-empty table whose availability
values lie in [0, 100] and whose workloads are non-negative, every slot
is optimal, the accumulated deficit is exactly zero, the flat 10%
reduction changes nothing (there are no non-optimal slots), and the
per-slot and total optimized energy equal the baseline exactly. -/
theorem c3_threshold_zero_conserves (slots : List Slot) (nr r : Rat)
    (hne : slots ≠ [])
    (h : ∀ s ∈ slots, 0 ≤ s.workload ∧ 0 ≤ s.availabilityPct ∧
      s.availabilityPct ≤ 100) :
    (∀ s ∈ slots, EnergySimulation.isOptimal 0 s = true)
    ∧ EnergySimulation.energyToShift 0 slots = 0
    ∧ EnergySimulation.reducedEnergy 0 slots =
        EnergySimulation.increasedEnergy 0 slots
    ∧ (EnergySimulation.run_simulation slots 0 nr r).df_optimized_energy =
        slots.map Slot.workload
    ∧ (EnergySimulation.run_simulation slots 0 nr r).total_optimized_energy =
        (EnergySimulation.run_simulation slots 0 nr r).total_baseline_energy := by
  have hopt : ∀ s ∈ slots, EnergySimulation.isOptimal 0 s = true := by
    intro s hs
    simp only [EnergySimulation.isOptimal, EnergySimulation.availabilityFrac,
      ge_iff_le, decide_eq_true_eq]
    exact div_nonneg (h s hs).2.1 (by norm_num)
  have hw : ∀ s ∈ slots, 0 ≤ s.workload := fun s hs => (h s hs).1
  have hfilter : slots.filter (fun s => ! EnergySimulation.isOptimal 0 s) = [] := by
    rw [List.filter_eq_nil_iff]
    intro s hs
    simp [hopt s hs]
  have hshift : EnergySimulation.energyToShift 0 slots = 0 := by
    simp [EnergySimulation.energyToShift, hfilter]
  have hincr : EnergySimulation.increasedEnergy 0 slots =
      slots.map Slot.workload := by
    simp only [EnergySimulation.increasedEnergy]
    rw [hshift, redistribute_zero 0 slots hw]
  have hred : EnergySimulation.reducedEnergy 0 slots =
      slots.map Slot.workload := by
    simp only [EnergySimulation.reducedEnergy]
    rw [hincr, reduce_all_optimal 0 slots hopt]
  have hoptE : EnergySimulation.optimizedEnergy 0 slots =
      slots.map Slot.workload := by
    simp only [EnergySimulation.optimizedEnergy]
    rw [hred, map_max_zero]
    intro x hx
    obtain ⟨s, hs, rfl⟩ := List.mem_map.mp hx
    exact hw s hs
  refine ⟨hopt, hshift, ?_, ?_, ?_⟩
  · rw [hred, hincr]
  · rw [df_optimized_energy_run, hoptE]
  · rw [total_optimized_energy_run, total_baseline_energy_run, hoptE]

/-- Witness for C3 at a concrete 1-row table. -/
theorem c3_threshold_zero_conserves_witness :
    (∀ s ∈ ([⟨10, 50, 1/10⟩] : List Slot),
      EnergySimulation.isOptimal 0 s = true)
    ∧ EnergySimulation.energyToShift 0 [⟨10, 50, 1/10⟩] = 0
    ∧ EnergySimulation.reducedEnergy 0 [⟨10, 50, 1/10⟩] =
        EnergySimulation.increasedEnergy 0 [⟨10, 50, 1/10⟩]
    ∧ (EnergySimulation.run_simulation [⟨10, 50, 1/10⟩] 0 (1/2)
        (1/50)).df_optimized_energy =
        ([⟨10, 50, 1/10⟩] : List Slot).map Slot.workload
    ∧ (EnergySimulation.run_simulation [⟨10, 50, 1/10⟩] 0 (1/2)
        (1/50)).total_optimized_energy =
        (EnergySimulation.run_simulation [⟨10, 50, 1/10⟩] 0 (1/2)
          (1/50)).total_baseline_energy :=
  c3_threshold_zero_conserves [⟨10, 50, 1/10⟩] (1/2) (1/50) (by simp)
    (by intro s hs; rw [List.mem_singleton] at hs; subst hs; norm_num)

/-- Claim C4: every per-slot optimized energy value returned by the
engine is non-negative, for every input table and parameters (the final
clamping step guarantees it). -/
theorem c4_optimized_nonneg (slots : List Slot) (t nr r : Rat) :
    ∀ x ∈ (EnergySimulation.run_simulation slots t nr r).df_optimized_energy,
      0 ≤ x := by
  intro x hx
  rw [df_optimized_energy_run] at hx
  simp only [EnergySimulation.optimizedEnergy] at hx
  obtain ⟨v, hv, rfl⟩ := List.mem_map.mp hx
  exact le_max_right v 0

/-- Witness for C4 at a concrete 1-row table. -/
theorem c4_optimized_nonneg_witness :
    (10 : Rat) ∈ (EnergySimulation.run_simulation [⟨10, 80, 1/10⟩]
      (7/10) (1/2) (1/50)).df_optimized_energy ∧ (0 : Rat) ≤ 10 := by
  have hmem : (10 : Rat) ∈ (EnergySimulation.run_simulation [⟨10, 80, 1/10⟩]
      (7/10) (1/2) (1/50)).df_optimized_energy := by
    norm_num [EnergySimulation.run_simulation, EnergySimulation.optimizedEnergy,
      EnergySimulation.reducedEnergy, EnergySimulation.increasedEnergy,
      EnergySimulation.redistribute, EnergySimulation.energyToShift,
      EnergySimulation.isOptimal, EnergySimulation.availabilityFrac,
      List.filter, List.zipWith]
  exact ⟨hmem, c4_optimized_nonneg [⟨10, 80, 1/10⟩] (7/10) (1/2) (1/50) 10 hmem⟩

/-- Claim C9: when every workload is zero the total baseline emissions
are zero and the divide-by-zero guard makes the carbon footprint impact
exactly 0. -/
theorem c9_zero_baseline_guard (slots : List Slot) (t nr r : Rat)
    (h : ∀ s ∈ slots, s.workload = 0) :
    (EnergySimulation.run_simulation slots t nr r).carbon_footprint_impact
      = 0 := by
  have htbm : (slots.map (EnergySimulation.slotBaselineEmissions nr r)).sum
      = 0 := by
    apply List.sum_eq_zero
    intro x hx
    obtain ⟨s, hs, rfl⟩ := List.mem_map.mp hx
    simp [EnergySimulation.slotBaselineEmissions, h s hs]
  rw [carbon_footprint_impact_run, htbm]
  simp

/-- Witness for C9 at a concrete 1-row all-zero-workload table. -/
theorem c9_zero_baseline_guard_witness :
    (EnergySimulation.run_simulation [⟨0, 50, 1/10⟩] (7/10) (1/2)
      (1/50)).carbon_footprint_impact = 0 :=
  c9_zero_baseline_guard [⟨0, 50, 1/10⟩] (7/10) (1/2) (1/50) (by
    intro s hs
    rw [List.mem_singleton] at hs
    subst hs
    rfl)

/-- Claim C8: a slot whose availability fraction equals the threshold is
classified optimal (the comparison is `≥`), and the decrease loop leaves
that slot's value unchanged, so it is never subjected to the flat 10%
reduction. -/
theorem c8_boundary_inclusive (slots : List Slot) (t : Rat)
    (h0 : 0 ≤ t) (h1 : t ≤ 1) (i : Nat) (s : Slot)
    (hs : slots[i]? = some s)
    (ha : EnergySimulation.availabilityFrac s = t) :
    EnergySimulation.isOptimal t s = true
    ∧ (EnergySimulation.reducedEnergy t slots)[i]? =
        (EnergySimulation.increasedEnergy t slots)[i]? := by
  have hopt : EnergySimulation.isOptimal t s = true := by
    simp [EnergySimulation.isOptimal, ha]
  exact ⟨hopt, zipWith_reduce_getElem t slots
    (EnergySimulation.increasedEnergy t slots) i s hs hopt⟩

/-- Witness for C8: a slot with availability 70% at threshold 0.7. -/
theorem c8_boundary_inclusive_witness :
    EnergySimulation.isOptimal (7/10) ⟨10, 70, 1/10⟩ = true
    ∧ (EnergySimulation.reducedEnergy (7/10) [⟨10, 70, 1/10⟩])[0]? =
        (EnergySimulation.increasedEnergy (7/10) [⟨10, 70, 1/10⟩])[0]? :=
  c8_boundary_inclusive [⟨10, 70, 1/10⟩] (7/10) (by norm_num) (by norm_num)
    0 ⟨10, 70, 1/10⟩ rfl (by norm_num [EnergySimulation.availabilityFrac])

/-- Counterexample for C7: with renewable_threshold = 3/2, outside
[0, 1], the optimization engine is executed anyway and produces metric
results (9 kWh optimized energy on a 1-row table): no ConfigurationError
rejection exists in the code. -/
theorem c7_counterexample_threshold_above_one :
    (1 : Rat) < 3/2
    ∧ (EnergySimulation.run_simulation [⟨10, 80, 1/10⟩] (3/2) (1/2)
        (1/50)).df_optimized_energy = [9]
    ∧ (EnergySimulation.run_simulation [⟨10, 80, 1/10⟩] (3/2) (1/2)
        (1/50)).total_optimized_energy = 9 := by
  refine ⟨by norm_num, ?_, ?_⟩ <;>
    norm_num [EnergySimulation.run_simulation, EnergySimulation.optimizedEnergy,
      EnergySimulation.reducedEnergy, EnergySimulation.increasedEnergy,
      EnergySimulation.redistribute, EnergySimulation.energyToShift,
      EnergySimulation.isOptimal, EnergySimulation.availabilityFrac,
      List.filter, List.zipWith]

/-- Claim C7 as amended: the code performs no range validation on the
threshold; the engine runs for any threshold.  With a threshold above 1
and availabilities in [0, 100] no slot is optimal, so every slot
receives the flat 10% reduction and the totals scale by 0.9. -/
theorem c7_amended_engine_runs_unvalidated (slots : List Slot)
    (t nr r : Rat) (ht : 1 < t)
    (h : ∀ s ∈ slots, 0 ≤ s.workload ∧ 0 ≤ s.availabilityPct ∧
      s.availabilityPct ≤ 100) :
    (∀ s ∈ slots, EnergySimulation.isOptimal t s = false)
    ∧ (EnergySimulation.run_simulation slots t nr r).df_optimized_energy =
        slots.map (fun s => s.workload * (9/10))
    ∧ (EnergySimulation.run_simulation slots t nr r).total_optimized_energy =
        (EnergySimulation.run_simulation slots t nr r).total_baseline_energy
          * (9/10) := by
  have hopt : ∀ s ∈ slots, EnergySimulation.isOptimal t s = false := by
    intro s hs
    have hle : s.availabilityPct / 100 ≤ 1 := by
      rw [div_le_one (by norm_num : (0:Rat) < 100)]
      exact (h s hs).2.2
    have hnot : ¬ (t ≤ s.availabilityPct / 100) := by linarith
    simp [EnergySimulation.isOptimal, EnergySimulation.availabilityFrac,
      ge_iff_le, hnot]
  have hincr : EnergySimulation.increasedEnergy t slots =
      slots.map Slot.workload := by
    simp only [EnergySimulation.increasedEnergy]
    rw [redistribute_no_optimal t slots _ hopt]
  have hred : EnergySimulation.reducedEnergy t slots =
      slots.map (fun s => s.workload - s.workload * (1/10)) := by
    simp only [EnergySimulation.reducedEnergy]
    rw [hincr, reduce_no_optimal t slots hopt]
  have hoptE : EnergySimulation.optimizedEnergy t slots =
      slots.map (fun s => s.workload * (9/10)) := by
    simp only [EnergySimulation.optimizedEnergy]
    rw [hred, map_max_zero]
    · apply List.map_congr_left
      intro s hs
      ring
    · intro x hx
      obtain ⟨s, hs, rfl⟩ := List.mem_map.mp hx
      have hw := (h s hs).1
      linarith
  refine ⟨hopt, ?_, ?_⟩
  · rw [df_optimized_energy_run, hoptE]
  · rw [total_optimized_energy_run, total_baseline_energy_run, hoptE,
      sum_map_mul_const]

/-- Witness for the amended C7 at threshold 3/2 on a 1-row table. -/
theorem c7_amended_engine_runs_unvalidated_witness :
    (∀ s ∈ ([⟨10, 80, 1/10⟩] : List Slot),
      EnergySimulation.isOptimal (3/2) s = false)
    ∧ (EnergySimulation.run_simulation [⟨10, 80, 1/10⟩] (3/2) (1/2)
        (1/50)).df_optimized_energy =
        ([⟨10, 80, 1/10⟩] : List Slot).map (fun s => s.workload * (9/10))
    ∧ (EnergySimulation.run_simulation [⟨10, 80, 1/10⟩] (3/2) (1/2)
        (1/50)).total_optimized_energy =
        (EnergySimulation.run_simulation [⟨10, 80, 1/10⟩] (3/2) (1/2)
          (1/50)).total_baseline_energy * (9/10) :=
  c7_amended_engine_runs_unvalidated [⟨10, 80, 1/10⟩] (3/2) (1/2) (1/50)
    (by norm_num)
    (by intro s hs; rw [List.mem_singleton] at hs; subst hs; norm_num)

/-- Claim C10: the engine's internal baseline emissions use a
renewable-weighted split, so on any data-model-conforming table (all
workloads non-negative, availabilities in [0, 100]) with at least one
slot of positive workload and positive availability, and a strictly
larger non-renewable emission factor, the engine's total baseline
emissions are strictly below the estimator's total emissions (which
treat all energy as non-renewable) on the same workloads. -/
theorem c10_engine_baseline_below_estimator (slots : List Slot)
    (t p nr r : Rat)
    (hdom : ∀ s ∈ slots, 0 ≤ s.workload ∧ 0 ≤ s.availabilityPct ∧
      s.availabilityPct ≤ 100)
    (hex : ∃ s ∈ slots, 0 < s.workload ∧ 0 < s.availabilityPct)
    (hr : r < nr) :
    (EnergySimulation.run_simulation slots t nr r).total_baseline_emissions <
      BaselineCalculator.totalEmissionsOf
        ⟨some (slots.map Slot.workload)⟩ p nr := by
  have hrhs : BaselineCalculator.totalEmissionsOf
      ⟨some (slots.map Slot.workload)⟩ p nr =
      (slots.map Slot.workload).sum * nr := by
    simp [BaselineCalculator.totalEmissionsOf,
      BaselineCalculator.calculate_baseline]
  rw [total_baseline_emissions_run, hrhs,
    ← sum_map_mul_const slots Slot.workload nr]
  refine List.sum_lt_sum _ _ ?_ ?_
  · intro s hs
    obtain ⟨hw, ha, _⟩ := hdom s hs
    have hfrac : 0 ≤ EnergySimulation.availabilityFrac s :=
      div_nonneg ha (by norm_num)
    simp only [EnergySimulation.slotBaselineEmissions]
    nlinarith [mul_nonneg (mul_nonneg hw hfrac) (sub_nonneg.mpr hr.le)]
  · obtain ⟨s, hs, hw, ha⟩ := hex
    refine ⟨s, hs, ?_⟩
    have hfrac : 0 < EnergySimulation.availabilityFrac s :=
      div_pos ha (by norm_num)
    simp only [EnergySimulation.slotBaselineEmissions]
    nlinarith [mul_pos (mul_pos hw hfrac) (sub_pos.mpr hr)]

/-- Witness for C10 at a concrete 1-row table. -/
theorem c10_engine_baseline_below_estimator_witness :
    (EnergySimulation.run_simulation [⟨10, 80, 1/10⟩] (7/10) (1/2)
      (1/50)).total_baseline_emissions <
      BaselineCalculator.totalEmissionsOf
        ⟨some (([⟨10, 80, 1/10⟩] : List Slot).map Slot.workload)⟩
        (1/10) (1/2) :=
  c10_engine_baseline_below_estimator [⟨10, 80, 1/10⟩] (7/10) (1/10) (1/2)
    (1/50)
    (by intro s hs; rw [List.mem_singleton] at hs; subst hs; norm_num)
    ⟨⟨10, 80, 1/10⟩, List.mem_singleton.mpr rfl, by norm_num, by norm_num⟩
    (by norm_num)
